import Mathlib

/-!
Shallow embedding of `src/main.py` (exman: an Excalidraw-to-Manim converter).

The whole program is the single function `parse_excalidraw_to_manim`.  We embed
its three steps over exact rational arithmetic (`Rat` stands for Python floats;
every arithmetic operation in the source is +, -, *, /, min, which agree with
the float semantics up to rounding):

* Step 1 (lines 10-20): reading the `[CLI]` section of the Manim config via
  `getCanvasDims`.  A config value on which Python's `float()` succeeds is
  embedded as `ConfigValue.num q`; one on which `float()` raises `ValueError`
  is `ConfigValue.malformed`.
* Step 2 (lines 31-56): aggregation of shapes into frames via `aggregate`.
  Python dict fields read with `.get(k)` are `Option`-valued (absent = `none`);
  `.get(k, d)` applies the default `d`.  The Python dict `frames` (insertion
  ordered, unique keys) is an association list `List (String × Frame)`.
* Step 3 (lines 58-121): scene generation via `run`/`writeFrames`/`emitFrame`.
  Each `manim_file.write` call is one constructor of `OutLine`; the numeric
  and string payloads of each written line are kept, the surrounding literal
  text (f-string skeleton) is not re-modelled.  `OutLine.header` stands for
  the exact string "from manim import *\n\n" written at line 60.

Python runtime errors that the source can raise are the constructors of
`PyErr`: `next()` on an empty generator raises `StopIteration` (line 37),
division by zero raises `ZeroDivisionError` (lines 70-71), arithmetic on
`None` raises `TypeError`, `float()` on a malformed string raises
`ValueError` (lines 17-19), and `None.title()` raises `AttributeError`
(line 76).
-/

deriving instance DecidableEq for Except

namespace Exman

/-- Python exceptions the source can raise, by Python exception class. -/
inductive PyErr where
  | stopIteration
  | zeroDivisionError
  | typeError
  | valueError
  | attributeError
deriving DecidableEq, Repr

/-- Raw shape record from the `elements` array (lines 25, 33-54): every field
is read with `.get`, so every field may be absent (`none`). -/
structure Shape where
  id : Option String := none
  type : Option String := none
  frameId : Option String := none
  x : Option Rat := none
  y : Option Rat := none
  width : Option Rat := none
  height : Option Rat := none
  text : Option String := none
  fontSize : Option Rat := none
  name : Option String := none
deriving DecidableEq, Repr

/-- Object record built at lines 47-55: `type`, `x`, `y` keep their
possibly-absent value, while `width`, `height`, `text`, `fontSize` get the
defaults 0, 0, "", 0 from `shape.get(key, default)`. -/
structure Obj where
  type : Option String
  x : Option Rat
  y : Option Rat
  width : Rat
  height : Rat
  text : String
  fontSize : Rat
deriving DecidableEq, Repr

/-- Frame record built at lines 39-46 from the shape whose `id` matches the
`frameId`; geometry fields are read with `.get` (no default). -/
structure Frame where
  width : Option Rat
  height : Option Rat
  x : Option Rat
  y : Option Rat
  name : Option String
  objects : List Obj
deriving DecidableEq, Repr

/-- Lines 47-55: build the object record for a shape. -/
def mkObj (s : Shape) : Obj :=
  { type := s.type
    x := s.x
    y := s.y
    width := s.width.getD 0
    height := s.height.getD 0
    text := s.text.getD ""
    fontSize := s.fontSize.getD 0 }

/-- Lines 39-46: build a fresh frame record from the frame shape. -/
def mkFrame (s : Shape) : Frame :=
  { width := s.width
    height := s.height
    x := s.x
    y := s.y
    name := s.name
    objects := [] }

/-- Python dict lookup `frames[frame_id]` / membership `frame_id in frames`
on the insertion-ordered association list. -/
def findFrame? : List (String × Frame) → String → Option Frame
  | [], _ => none
  | (k, fr) :: rest, fid => if fid = k then some fr else findFrame? rest fid

/-- Line 56 when the frame already exists:
`frames[frame_id]["objects"].append(object)`. -/
def appendObj (frames : List (String × Frame)) (fid : String) (o : Obj) :
    List (String × Frame) :=
  frames.map fun p =>
    if p.1 = fid then (p.1, { p.2 with objects := p.2.objects ++ [o] }) else p

/-- Lines 32-56: one pass over the shape list.  `shapes` is the full list
(line 38 re-scans it from the start), `rest` the remaining loop iterations,
`acc` the `frames` dict built so far.  `next(...)` on a shape list with no
matching `id` raises `StopIteration`. -/
def aggregateAux (shapes : List Shape) :
    List Shape → List (String × Frame) → Except PyErr (List (String × Frame))
  | [], acc => .ok acc
  | s :: rest, acc =>
    match s.frameId with
    | none => aggregateAux shapes rest acc
    | some fid =>
      if (findFrame? acc fid).isSome then
        aggregateAux shapes rest (appendObj acc fid (mkObj s))
      else
        match shapes.find? (fun t => t.id == some fid) with
        | none => .error .stopIteration
        | some frShape =>
          aggregateAux shapes rest
            (acc ++ [(fid, { mkFrame frShape with objects := [mkObj s] })])

/-- Step 2 (lines 31-56): aggregate objects into frames. -/
def aggregate (shapes : List Shape) : Except PyErr (List (String × Frame)) :=
  aggregateAux shapes shapes []

/-- Python `str.title()` restricted to the alphabetic/nonalphabetic
distinction: a letter is uppercased when the previous character is not a
letter and lowercased otherwise (line 76/84 `frame_name.title()`). -/
def titleAux : Bool → List Char → List Char
  | _, [] => []
  | prevAlpha, c :: cs =>
    if c.isAlpha then
      (if prevAlpha then c.toLower else c.toUpper) :: titleAux true cs
    else
      c :: titleAux false cs

/-- Python `frame_name.title()`. -/
def pyTitle (s : String) : String := ⟨titleAux false s.data⟩

/-- Python `''.join(x for x in s if not x.isspace())`. -/
def removeSpaces (s : String) : String := ⟨s.data.filter (fun c => !c.isWhitespace)⟩

/-- Lines 76/84: the scene identifier
`f"Frame{''.join(x for x in frame_name.title() if not x.isspace())}Scene"`. -/
def sceneName (name : String) : String :=
  "Frame" ++ removeSpaces (pyTitle name) ++ "Scene"

/-- Lines 70-72: `scale = min(manim_frame_width / frame_width,
manim_frame_height / frame_height)`, for a frame whose width and height are
present and nonzero.  Python's two-argument `min(a, b)` returns `a` when
`a <= b` and `b` otherwise, written out so that it evaluates. -/
def scaleFor (cw ch w h : Rat) : Rat :=
  if cw / w ≤ ch / h then cw / w else ch / h

/-- Lines 95-100: transform one object into canvas coordinates
`(obj_x, obj_y, obj_width, obj_height)`.  Arithmetic on an absent (`None`)
coordinate raises `TypeError`. -/
def transformObj (o : Obj) (fx? fy? : Option Rat) (w h scale : Rat) :
    Except PyErr (Rat × Rat × Rat × Rat) :=
  match o.x, fx? with
  | some ox, some fx =>
    match o.y, fy? with
    | some oy, some fy =>
      .ok ((ox - fx - w / 2 + o.width / 2) * scale,
           (-(oy - fy - h / 2 + o.height / 2)) * scale,
           o.width * scale,
           o.height * scale)
    | _, _ => .error .typeError
  | _, _ => .error .typeError

/-- One line written to the output file.  `header` is the literal
"from manim import *\n\n" (line 60); `classLine nm` is
`f"class {nm}(Scene):\n"` (line 83-84); `constructLine` is
`"    def construct(self):\n"` (line 85); `addRectangle`/`addEllipse` carry
the four numbers interpolated at lines 107/111; `addText` carries the split
lines and numbers interpolated at line 117; `blankLine` is the `"\n"` of
line 121. -/
inductive OutLine where
  | header
  | classLine (sceneId : String)
  | constructLine
  | addRectangle (width height x y : Rat)
  | addEllipse (width height x y : Rat)
  | addText (lines : List String) (fontSize : Rat) (x y : Rat)
  | blankLine
deriving DecidableEq, Repr

/-- Lines 94-119: process one object — transform it (lines 95-100 run for
every object, whatever its type), then dispatch on `obj["type"]`; a type
other than the three known ones writes nothing. -/
def emitObj (fx? fy? : Option Rat) (w h scale : Rat) (o : Obj) :
    Except PyErr (List OutLine) :=
  match transformObj o fx? fy? w h scale with
  | .error e => .error e
  | .ok (cx, cy, cwid, chei) =>
    if o.type = some "rectangle" then
      .ok [.addRectangle cwid chei cx cy]
    else if o.type = some "ellipse" then
      .ok [.addEllipse cwid chei cx cy]
    else if o.type = some "text" then
      .ok [.addText (o.text.splitOn "\n") (o.fontSize * (3 / 10)) cx cy]
    else
      .ok []

/-- The object loop of lines 94-119: lines written so far are kept when a
later object raises. -/
def emitObjs (fx? fy? : Option Rat) (w h scale : Rat) :
    List Obj → List OutLine × Option PyErr
  | [] => ([], none)
  | o :: os =>
    match emitObj fx? fy? w h scale o with
    | .error e => ([], some e)
    | .ok ls =>
      let rest := emitObjs fx? fy? w h scale os
      (ls ++ rest.1, rest.2)

/-- Lines 63-121 for a single frame: the scale is computed first (lines
70-72: `TypeError` on an absent dimension, `ZeroDivisionError` on a zero
one, width before height), then `frame_name.title()` runs in the log print
(line 76: `AttributeError` on an absent name) before anything is written,
then the class and construct lines, the objects, and a final blank line
(only reached when no object raised).  The first component is what reached
the output file, the second the exception that aborted the run, if any. -/
def emitFrame (cw ch : Rat) (fr : Frame) : List OutLine × Option PyErr :=
  match fr.width with
  | none => ([], some .typeError)
  | some w =>
    if w = 0 then ([], some .zeroDivisionError)
    else
      match fr.height with
      | none => ([], some .typeError)
      | some h =>
        if h = 0 then ([], some .zeroDivisionError)
        else
          match fr.name with
          | none => ([], some .attributeError)
          | some nm =>
            let scale := scaleFor cw ch w h
            let objOut := emitObjs fr.x fr.y w h scale fr.objects
            (.classLine (sceneName nm) :: .constructLine :: objOut.1 ++
               (if objOut.2.isSome then [] else [.blankLine]),
             objOut.2)

/-- The frame loop of lines 62-121: frames are processed in dict (insertion)
order; output written before an exception is kept. -/
def writeFrames (cw ch : Rat) : List (String × Frame) → List OutLine × Option PyErr
  | [] => ([], none)
  | (_, fr) :: rest =>
    match emitFrame cw ch fr with
    | (ls, some e) => (ls, some e)
    | (ls, none) =>
      let out := writeFrames cw ch rest
      (ls ++ out.1, out.2)

/-- State of the output file at the end of the run: line 59 opens it only
after the empty-elements early return (line 28) and after aggregation
(lines 31-56) completed without raising. -/
inductive FileState where
  | notOpened
  | written (lines : List OutLine)
deriving DecidableEq, Repr

/-- Lines 22-123 of `parse_excalidraw_to_manim`, after the config has been
read: `cw`, `ch` are `manim_frame_width`, `manim_frame_height`; `shapes` is
`excalidraw_data.get("elements", [])`.  Returns the final output-file state
and the exception that terminated the run, if any. -/
def run (cw ch : Rat) (shapes : List Shape) : FileState × Option PyErr :=
  if shapes.isEmpty then (.notOpened, none)
  else
    match aggregate shapes with
    | .error e => (.notOpened, some e)
    | .ok frames =>
      let body := writeFrames cw ch frames
      (.written (.header :: body.1), body.2)

/-- A value found in the `[CLI]` config section: `num q` is a string on
which Python's `float()` yields `q`; `malformed` is a string on which
`float()` raises `ValueError`. -/
inductive ConfigValue where
  | num (q : Rat)
  | malformed
deriving DecidableEq, Repr

/-- The parsed Manim config, as far as lines 10-20 consult it: whether a
`[CLI]` section exists and the raw values of its two keys. -/
structure Config where
  hasCLI : Bool
  frame_width : Option ConfigValue
  frame_height : Option ConfigValue
deriving DecidableEq, Repr

/-- Lines 13-20: canvas dimensions default to (14, 8); when a `[CLI]`
section exists, `float(config["CLI"].get(key, default))` is applied to each
key, raising `ValueError` on a malformed value (width first). -/
def getCanvasDims (c : Config) : Except PyErr (Rat × Rat) :=
  if c.hasCLI then
    match c.frame_width with
    | some .malformed => .error .valueError
    | some (.num w) =>
      match c.frame_height with
      | some .malformed => .error .valueError
      | some (.num h) => .ok (w, h)
      | none => .ok (w, 8)
    | none =>
      match c.frame_height with
      | some .malformed => .error .valueError
      | some (.num h) => .ok (14, h)
      | none => .ok (14, 8)
  else
    .ok (14, 8)

/-- Specification-side characterization of a frame's `objects` sequence: the
object records of exactly the shapes whose `frameId` equals `fid`, in
encounter order.  Used to state the aggregation provenance theorem. -/
def objectsFor (fid : String) : List Shape → List Obj
  | [] => []
  | s :: rest =>
    if s.frameId = some fid then mkObj s :: objectsFor fid rest
    else objectsFor fid rest

/-- Concrete input: the frame shape of the "Intro Scene" scenario. -/
def introFrameShape : Shape :=
  { id := some "frame1", type := some "frame", x := some 0, y := some 0,
    width := some 1400, height := some 800, name := some "Intro Scene" }

/-- Concrete input: the rectangle of the "Intro Scene" scenario. -/
def introRectShape : Shape :=
  { id := some "rect1", type := some "rectangle", frameId := some "frame1",
    x := some 700, y := some 400, width := some 100, height := some 100 }

/-- Concrete input: the `elements` array of the "Intro Scene" scenario. -/
def introShapes : List Shape := [introFrameShape, introRectShape]

/-- Concrete input: a shape whose `frameId` matches no shape `id`. -/
def danglingShape : Shape :=
  { id := some "a", type := some "rectangle", frameId := some "missing" }

/-- Concrete input: a frame shape whose `frameId` points to itself. -/
def selfRefShape : Shape :=
  { id := some "f", frameId := some "f", type := some "rectangle",
    x := some 1, y := some 2, width := some 3, height := some 4,
    name := some "F" }

/-- The frame the aggregator builds from `selfRefShape`: its own object
record ends up in its `objects`. -/
def selfRefFrame : Frame :=
  { width := some 3, height := some 4, x := some 1, y := some 2,
    name := some "F", objects := [mkObj selfRefShape] }

/-- Concrete frame with valid geometry and no objects. -/
def goodFrame : Frame :=
  { width := some 1400, height := some 800, x := some 0, y := some 0,
    name := some "Good", objects := [] }

/-- Concrete frame with width 0. -/
def zeroWidthFrame : Frame :=
  { width := some 0, height := some 10, x := some 0, y := some 0,
    name := some "Bad", objects := [] }

/-- Concrete object of an unsupported type. -/
def diamondObj : Obj :=
  { type := some "diamond", x := some 5, y := some 6, width := 2, height := 2,
    text := "", fontSize := 0 }

/-- Concrete rectangle object. -/
def rectObjW : Obj :=
  { type := some "rectangle", x := some 1, y := some 1, width := 2, height := 2,
    text := "", fontSize := 0 }

/-- C1: for every frame geometry `(fx, fy, w, h)` with nonzero dimensions and
computed scale `scaleFor cw ch w h`, every object with present coordinates is
mapped to `canvas_x = (obj.x - frame.x - frame.width/2 + obj.width/2) * scale`,
`canvas_y = -(obj.y - frame.y - frame.height/2 + obj.height/2) * scale`,
`canvas_width = obj.width * scale`, `canvas_height = obj.height * scale`. -/
theorem c1_transform_formula (cw ch w h fx fy ox oy ow oh : Rat)
    (tp : Option String) (tx : String) (fsz : Rat)
    (_hw : w ≠ 0) (_hh : h ≠ 0) :
    transformObj ⟨tp, some ox, some oy, ow, oh, tx, fsz⟩ (some fx) (some fy)
        w h (scaleFor cw ch w h) =
      .ok ((ox - fx - w / 2 + ow / 2) * scaleFor cw ch w h,
           -(oy - fy - h / 2 + oh / 2) * scaleFor cw ch w h,
           ow * scaleFor cw ch w h,
           oh * scaleFor cw ch w h) := rfl

/-- Witness for C1 at the "Intro Scene" geometry. -/
theorem c1_transform_formula_witness :
    transformObj ⟨some "rectangle", some 700, some 400, 100, 100, "", 0⟩
        (some 0) (some 0) 1400 800 (scaleFor 14 8 1400 800) =
      .ok ((700 - 0 - 1400 / 2 + 100 / 2) * scaleFor 14 8 1400 800,
           -(400 - 0 - 800 / 2 + 100 / 2) * scaleFor 14 8 1400 800,
           100 * scaleFor 14 8 1400 800,
           100 * scaleFor 14 8 1400 800) :=
  c1_transform_formula 14 8 1400 800 0 0 700 400 100 100
    (some "rectangle") "" 0 (by norm_num) (by norm_num)

/-- C2 fails as stated: the claim quantifies over every canvas `(Cw, Ch)`,
but with canvas width 0 (reachable by configuring `frame_width = 0`) the
scale of a 1 by 1 frame is `min(0/1, 8/1) = 0`, not strictly positive. -/
theorem c2_scale_not_positive_counterexample :
    (0 : Rat) < 1 ∧ (0 : Rat) < 1 ∧ ¬ (0 < scaleFor 0 8 1 1) := by
  refine ⟨by norm_num, by norm_num, ?_⟩
  have : scaleFor 0 8 1 1 = 0 := by
    simp [scaleFor]
  simp [this]

/-- C2 (amended): the per-frame scale factor equals `min(Cw/W, Ch/H)`, and it
is strictly positive whenever `W`, `H`, `Cw`, `Ch` are all strictly
positive. -/
theorem c2_scale_min_positive (cw ch w h : Rat) :
    scaleFor cw ch w h = min (cw / w) (ch / h) ∧
    (0 < w → 0 < h → 0 < cw → 0 < ch → 0 < scaleFor cw ch w h) := by
  have hmin : scaleFor cw ch w h = min (cw / w) (ch / h) := by
    unfold scaleFor
    exact (min_def _ _).symm
  refine ⟨hmin, fun hw hh hcw hch => ?_⟩
  rw [hmin]
  exact lt_min (div_pos hcw hw) (div_pos hch hh)

/-- Witness for C2 (amended) at the default canvas and the scenario frame. -/
theorem c2_scale_min_positive_witness :
    scaleFor 14 8 1400 800 = min ((14 : Rat) / 1400) ((8 : Rat) / 800) ∧
    0 < scaleFor 14 8 1400 800 :=
  ⟨(c2_scale_min_positive 14 8 1400 800).1,
   (c2_scale_min_positive 14 8 1400 800).2 (by norm_num) (by norm_num)
     (by norm_num) (by norm_num)⟩

/-- C3 fails as stated: on the "Intro Scene" input the rectangle's top-left
corner — not its center — sits at the frame center, so the emitted
rectangle is centered at `(0.5, -0.5)`, not `(0, 0)`. -/
theorem c3_scenario_counterexample :
    run 14 8 introShapes =
      (.written [.header, .classLine "FrameIntroSceneScene", .constructLine,
                 .addRectangle 1 1 (1 / 2) (-(1 / 2)), .blankLine], none) ∧
    ((1 : Rat) / 2 ≠ 0 ∧ -((1 : Rat) / 2) ≠ 0) := by
  refine ⟨?_, by norm_num, by norm_num⟩
  norm_num [run, aggregate, aggregateAux, introShapes, introFrameShape,
    introRectShape, findFrame?, appendObj, mkObj, mkFrame, writeFrames,
    emitFrame, emitObjs, emitObj, transformObj, scaleFor, sceneName, pyTitle,
    removeSpaces, titleAux]
  decide

/-- C3 (amended): on the "Intro Scene" input the scale is 0.01 and the
rectangle maps to `canvas_x = 0.5`, `canvas_y = -0.5`, `canvas_width = 1`,
`canvas_height = 1`, inside a scene whose identifier is built from
"IntroScene" as `FrameIntroSceneScene`. -/
theorem c3_intro_scene_scenario :
    scaleFor 14 8 1400 800 = 1 / 100 ∧
    sceneName "Intro Scene" = "FrameIntroSceneScene" ∧
    run 14 8 introShapes =
      (.written [.header, .classLine "FrameIntroSceneScene", .constructLine,
                 .addRectangle 1 1 (1 / 2) (-(1 / 2)), .blankLine], none) := by
  refine ⟨by norm_num [scaleFor], rfl, ?_⟩
  norm_num [run, aggregate, aggregateAux, introShapes, introFrameShape,
    introRectShape, findFrame?, appendObj, mkObj, mkFrame, writeFrames,
    emitFrame, emitObjs, emitObj, transformObj, scaleFor, sceneName, pyTitle,
    removeSpaces, titleAux]
  decide

/-- C4: on an input whose only shape carries a `frameId` matching no shape
`id`, the run fails — but with Python's `StopIteration` from the exhausted
generator at line 37, which does not name the unresolved id, rather than
with a `MissingFrameError`; the output file is never opened. -/
theorem c4_missing_frame_error :
    run 14 8 [danglingShape] = (.notOpened, some .stopIteration) ∧
    aggregate [danglingShape] = .error .stopIteration := ⟨by decide, by decide⟩

/-- C7 fails as stated: a `[CLI]` section whose `frame_width` value is
malformed makes `float()` raise `ValueError`, terminating the run; the
dimensions do not fall back to the defaults. -/
theorem c7_malformed_config_counterexample :
    getCanvasDims ⟨true, some .malformed, none⟩ = .error .valueError ∧
    getCanvasDims ⟨true, some .malformed, none⟩ ≠ .ok (14, 8) := by
  refine ⟨rfl, fun h => ?_⟩
  exact absurd h (by simp [getCanvasDims])

/-- C7 (amended): an absent `CLI` section or absent `frame_width` /
`frame_height` keys fall back to the defaults `(14, 8)` without error, but a
malformed present value raises a fatal `ValueError` instead of falling back
to the defaults. -/
theorem c7_config_defaults (c : Config) :
    (c.hasCLI = false → getCanvasDims c = .ok (14, 8)) ∧
    (c.frame_width = none → c.frame_height = none →
       getCanvasDims c = .ok (14, 8)) ∧
    (c.hasCLI = true → c.frame_width = some .malformed →
       getCanvasDims c = .error .valueError) := by
  obtain ⟨cli, fw, fh⟩ := c
  refine ⟨fun h1 => ?_, fun h1 h2 => ?_, fun h1 h2 => ?_⟩
  · simp only at h1
    simp [getCanvasDims, h1]
  · simp only at h1 h2
    subst h1; subst h2
    cases cli <;> simp [getCanvasDims]
  · simp only at h1 h2
    subst h2
    simp [getCanvasDims, h1]

/-- Witness for C7 (amended): no `CLI` section gives the defaults; a
malformed `frame_width` gives `ValueError`. -/
theorem c7_config_defaults_witness :
    getCanvasDims ⟨false, none, none⟩ = .ok (14, 8) ∧
    getCanvasDims ⟨true, some .malformed, none⟩ = .error .valueError :=
  ⟨(c7_config_defaults ⟨false, none, none⟩).1 rfl,
   (c7_config_defaults ⟨true, some .malformed, none⟩).2.2 rfl rfl⟩

/-- C5: under exact rational arithmetic, dividing the transformed canvas
center back by the scale and adding the frame origin and half-extent
recovers the object's original center `(obj.x + obj.width/2,
obj.y + obj.height/2)`. -/
theorem c5_roundtrip_center (cw ch w h fx fy ox oy ow oh : Rat)
    (tp : Option String) (tx : String) (fsz : Rat)
    (_hw : w ≠ 0) (_hh : h ≠ 0) (hs : scaleFor cw ch w h ≠ 0)
    (cx cy cwid chei : Rat)
    (ht : transformObj ⟨tp, some ox, some oy, ow, oh, tx, fsz⟩ (some fx)
            (some fy) w h (scaleFor cw ch w h) = .ok (cx, cy, cwid, chei)) :
    cx / scaleFor cw ch w h + fx + w / 2 = ox + ow / 2 ∧
    -(cy / scaleFor cw ch w h) + fy + h / 2 = oy + oh / 2 := by
  have ht' : (Except.ok ((ox - fx - w / 2 + ow / 2) * scaleFor cw ch w h,
        (-(oy - fy - h / 2 + oh / 2)) * scaleFor cw ch w h,
        ow * scaleFor cw ch w h,
        oh * scaleFor cw ch w h) : Except PyErr (Rat × Rat × Rat × Rat)) =
      .ok (cx, cy, cwid, chei) := ht
  simp only [Except.ok.injEq, Prod.mk.injEq] at ht'
  obtain ⟨h1, h2, -, -⟩ := ht'
  subst h1
  subst h2
  constructor
  · rw [mul_div_cancel_right₀ _ hs]
    ring
  · rw [mul_div_cancel_right₀ _ hs]
    ring

/-- Witness for C5 at the "Intro Scene" geometry. -/
theorem c5_roundtrip_center_witness :
    (1 : Rat) / 2 / scaleFor 14 8 1400 800 + 0 + 1400 / 2 = 700 + 100 / 2 ∧
    -(-((1 : Rat) / 2) / scaleFor 14 8 1400 800) + 0 + 800 / 2 =
      400 + 100 / 2 :=
  c5_roundtrip_center 14 8 1400 800 0 0 700 400 100 100
    (some "rectangle") "" 0 (by norm_num) (by norm_num)
    (by norm_num [scaleFor]) (1 / 2) (-(1 / 2)) 1 1
    (by norm_num [transformObj, scaleFor])

/-- Helper: when every frame of a prefix emits without error, the output of
the whole list is the prefix's output followed by the remainder's, and the
final error status is the remainder's. -/
lemma writeFrames_append (cw ch : Rat) (gs rest : List (String × Frame))
    (hgood : ∀ p ∈ gs, (emitFrame cw ch p.2).2 = none) :
    writeFrames cw ch (gs ++ rest) =
      ((writeFrames cw ch gs).1 ++ (writeFrames cw ch rest).1,
       (writeFrames cw ch rest).2) := by
  induction gs with
  | nil => simp [writeFrames]
  | cons p gs ih =>
    obtain ⟨k, fr⟩ := p
    have hp : (emitFrame cw ch fr).2 = none :=
      hgood (k, fr) (List.mem_cons_self _ _)
    have hgs : ∀ q ∈ gs, (emitFrame cw ch q.2).2 = none :=
      fun q hq => hgood q (List.mem_cons_of_mem _ hq)
    rcases hef : emitFrame cw ch fr with ⟨ls, e⟩
    have he : e = none := by
      rw [hef] at hp
      exact hp
    subst he
    simp only [List.cons_append, writeFrames, hef, List.append_eq]
    rw [ih hgs]
    simp [List.append_assoc, writeFrames, hef]

/-- C6: a frame whose width is zero (or whose height is zero, its width
being a number) makes the scale computation raise `ZeroDivisionError`
before anything of that frame is written; the error propagates, and the
output keeps exactly the lines of the frames processed before it. -/
theorem c6_zero_dimension_frame (cw ch : Rat) (gs : List (String × Frame))
    (fid : String) (f : Frame) (rest : List (String × Frame))
    (hgood : ∀ p ∈ gs, (emitFrame cw ch p.2).2 = none)
    (hbad : f.width = some 0 ∨ (f.width.isSome ∧ f.height = some 0)) :
    emitFrame cw ch f = ([], some .zeroDivisionError) ∧
    writeFrames cw ch (gs ++ (fid, f) :: rest) =
      ((writeFrames cw ch gs).1, some .zeroDivisionError) := by
  have hbadE : emitFrame cw ch f = ([], some .zeroDivisionError) := by
    rcases hbad with h | ⟨hw, hh⟩
    · simp [emitFrame, h]
    · obtain ⟨w, hw'⟩ := Option.isSome_iff_exists.mp hw
      by_cases h0 : w = 0
      · subst h0
        simp [emitFrame, hw']
      · simp [emitFrame, hw', hh, h0]
  refine ⟨hbadE, ?_⟩
  rw [writeFrames_append cw ch gs _ hgood]
  have hstop : writeFrames cw ch ((fid, f) :: rest) =
      ([], some .zeroDivisionError) := by
    simp [writeFrames, hbadE]
  rw [hstop]
  simp

/-- Witness for C6: one good frame followed by a zero-width frame. -/
theorem c6_zero_dimension_frame_witness :
    emitFrame 14 8 zeroWidthFrame = ([], some .zeroDivisionError) ∧
    writeFrames 14 8 ([("g", goodFrame)] ++ ("bad", zeroWidthFrame) :: []) =
      ((writeFrames 14 8 [("g", goodFrame)]).1, some .zeroDivisionError) :=
  c6_zero_dimension_frame 14 8 [("g", goodFrame)] "bad" zeroWidthFrame []
    (by
      intro p hp
      simp only [List.mem_singleton] at hp
      subst hp
      norm_num [emitFrame, emitObjs, goodFrame])
    (Or.inl rfl)

/-- Helper: `findFrame?` on a concatenation scans the left part first. -/
lemma findFrame?_append (l l' : List (String × Frame)) (fid : String) :
    findFrame? (l ++ l') fid =
      match findFrame? l fid with
      | some fr => some fr
      | none => findFrame? l' fid := by
  induction l with
  | nil => simp [findFrame?]
  | cons p rest ih =>
    obtain ⟨k, fr⟩ := p
    by_cases h : fid = k
    · simp [findFrame?, h]
    · simp [findFrame?, h, ih]

/-- Helper: `findFrame?` after `appendObj` sees the appended object exactly
at the targeted key. -/
lemma findFrame?_appendObj (l : List (String × Frame)) (k fid : String)
    (o : Obj) :
    findFrame? (appendObj l k o) fid =
      if fid = k then
        (findFrame? l fid).map fun fr =>
          { fr with objects := fr.objects ++ [o] }
      else findFrame? l fid := by
  induction l with
  | nil => simp [findFrame?, appendObj]
  | cons p rest ih =>
    obtain ⟨k1, fr1⟩ := p
    have hcons : appendObj ((k1, fr1) :: rest) k o =
        (if k1 = k then (k1, { fr1 with objects := fr1.objects ++ [o] })
         else (k1, fr1)) :: appendObj rest k o := rfl
    by_cases h1 : k1 = k
    · subst h1
      rw [hcons, if_pos rfl]
      by_cases h2 : fid = k1
      · subst h2
        simp [findFrame?]
      · simp [findFrame?, h2, ih]
    · rw [hcons, if_neg h1]
      by_cases h2 : fid = k1
      · subst h2
        simp [findFrame?, h1]
      · simp [findFrame?, h2, ih]

/-- Helper invariant of the aggregation loop: a frame found in the result
carries the objects it had in the accumulator followed by the object
records of the remaining shapes that reference it, in encounter order. -/
lemma aggregateAux_objects (shapes : List Shape) (rest : List Shape) :
    ∀ (acc fs : List (String × Frame)),
      aggregateAux shapes rest acc = .ok fs →
      ∀ (fid : String) (fr : Frame), findFrame? fs fid = some fr →
        fr.objects =
          (match findFrame? acc fid with
           | some fr0 => fr0.objects
           | none => []) ++ objectsFor fid rest := by
  induction rest with
  | nil =>
    intro acc fs hagg fid fr hfind
    have hacc : acc = fs := by simpa [aggregateAux] using hagg
    subst hacc
    rw [hfind]
    simp [objectsFor]
  | cons s rest ih =>
    intro acc fs hagg fid fr hfind
    rcases hsf : s.frameId with _ | fid'
    · rw [aggregateAux, hsf] at hagg
      have h2 := ih acc fs hagg fid fr hfind
      simpa [objectsFor, hsf] using h2
    · simp only [aggregateAux, hsf] at hagg
      by_cases hmem : (findFrame? acc fid').isSome
      · rw [if_pos hmem] at hagg
        have h2 := ih _ _ hagg fid fr hfind
        rw [findFrame?_appendObj] at h2
        by_cases heq : fid = fid'
        · subst heq
          rw [if_pos rfl] at h2
          obtain ⟨fr0, hfr0⟩ := Option.isSome_iff_exists.mp hmem
          rw [hfr0] at h2
          rw [hfr0]
          simp only [objectsFor, hsf]
          simp at h2 ⊢
          simpa [List.append_assoc] using h2
        · rw [if_neg heq] at h2
          have hobj : objectsFor fid (s :: rest) = objectsFor fid rest := by
            have : ¬ s.frameId = some fid := by
              rw [hsf]
              simp
              exact fun hc => heq hc.symm
            simp [objectsFor, this]
          rw [hobj]
          exact h2
      · rw [if_neg hmem] at hagg
        rcases hfnd : shapes.find? (fun t => t.id == some fid') with _ | frSh
        · rw [hfnd] at hagg
          exact absurd hagg (by simp)
        · rw [hfnd] at hagg
          have h2 := ih _ _ hagg fid fr hfind
          rw [findFrame?_append] at h2
          have hnone : findFrame? acc fid' = none :=
            Option.not_isSome_iff_eq_none.mp hmem
          by_cases heq : fid = fid'
          · subst heq
            rw [hnone] at h2
            simp only [findFrame?, if_pos rfl, mkFrame] at h2
            rw [hnone]
            simp only [objectsFor, hsf, if_pos rfl]
            simpa using h2
          · have hlast : findFrame? [(fid', { mkFrame frSh with
                objects := [mkObj s] })] fid = none := by
              simp [findFrame?, heq]
            have hobj : objectsFor fid (s :: rest) = objectsFor fid rest := by
              have : ¬ s.frameId = some fid := by
                rw [hsf]
                simp
                exact fun hc => heq hc.symm
              simp [objectsFor, this]
            rw [hobj]
            rcases hacc : findFrame? acc fid with _ | fr0
            · simp only [hacc, hlast] at h2 ⊢
              exact h2
            · simp only [hacc] at h2 ⊢
              exact h2

/-- C8 fails as stated: a frame shape whose `frameId` points to itself is
processed like any other shape, so its own object record is appended to
its own frame's `objects`. -/
theorem c8_self_reference_counterexample :
    aggregate [selfRefShape] = .ok [("f", selfRefFrame)] ∧
    mkObj selfRefShape ∈ selfRefFrame.objects := by
  constructor
  · simp [aggregate, aggregateAux, selfRefShape, selfRefFrame, findFrame?,
      mkFrame, mkObj]
  · simp [selfRefFrame]

/-- C8 (amended): a frame's `objects` sequence consists of exactly the
object records of the shapes whose `frameId` equals that frame's id, in
encounter order; hence the geometry-supplying shape is absent from its
frame's `objects` when its own `frameId` is null, but a shape whose
`frameId` points to itself is appended to its own frame's `objects` like
any other shape. -/
theorem c8_objects_provenance (shapes : List Shape)
    (fs : List (String × Frame)) (fid : String) (fr : Frame)
    (hagg : aggregate shapes = .ok fs)
    (hfind : findFrame? fs fid = some fr) :
    fr.objects = objectsFor fid shapes := by
  have h := aggregateAux_objects shapes shapes [] fs hagg fid fr hfind
  simpa [findFrame?] using h

/-- Witness for C8 (amended) on the self-referencing frame shape. -/
theorem c8_objects_provenance_witness :
    selfRefFrame.objects = objectsFor "f" [selfRefShape] :=
  c8_objects_provenance [selfRefShape] [("f", selfRefFrame)] "f" selfRefFrame
    (by
      simp [aggregate, aggregateAux, selfRefShape, selfRefFrame, findFrame?,
        mkFrame, mkObj])
    (by simp [findFrame?])

/-- C9: an object whose type is none of "rectangle", "ellipse", "text"
produces no drawing statement and no error (given present coordinates,
since the transform of lines 95-100 runs before the type dispatch), and
removing it from a frame's object list leaves the emitted statements of all
other objects unchanged and in order. -/
theorem c9_unknown_type_skipped (fx fy w h scale ox oy : Rat) (o : Obj)
    (hx : o.x = some ox) (hy : o.y = some oy)
    (ht1 : o.type ≠ some "rectangle") (ht2 : o.type ≠ some "ellipse")
    (ht3 : o.type ≠ some "text") (os1 os2 : List Obj) :
    emitObj (some fx) (some fy) w h scale o = .ok [] ∧
    emitObjs (some fx) (some fy) w h scale (os1 ++ o :: os2) =
      emitObjs (some fx) (some fy) w h scale (os1 ++ os2) := by
  have hskip : emitObj (some fx) (some fy) w h scale o = .ok [] := by
    simp [emitObj, transformObj, hx, hy, ht1, ht2, ht3]
  refine ⟨hskip, ?_⟩
  induction os1 with
  | nil => simp [emitObjs, hskip]
  | cons p os1 ih =>
    rcases hp : emitObj (some fx) (some fy) w h scale p with e | ls
    · simp [emitObjs, hp]
    · simp only [List.cons_append, emitObjs, hp, List.append_eq]
      rw [ih]

/-- Witness for C9: a "diamond" object between a rectangle and nothing. -/
theorem c9_unknown_type_skipped_witness :
    emitObj (some 0) (some 0) 1400 800 (1 / 100) diamondObj = .ok [] ∧
    emitObjs (some 0) (some 0) 1400 800 (1 / 100)
        ([rectObjW] ++ diamondObj :: []) =
      emitObjs (some 0) (some 0) 1400 800 (1 / 100) ([rectObjW] ++ []) :=
  c9_unknown_type_skipped 0 0 1400 800 (1 / 100) 5 6 diamondObj rfl rfl
    (by simp [diamondObj]) (by simp [diamondObj]) (by simp [diamondObj])
    [rectObjW] []

/-- Helper: shapes without a `frameId` contribute nothing to the frames
dict. -/
lemma aggregateAux_no_frameId (shapes : List Shape) :
    ∀ (rest : List Shape), (∀ s ∈ rest, s.frameId = none) →
      ∀ acc, aggregateAux shapes rest acc = .ok acc := by
  intro rest
  induction rest with
  | nil =>
    intro _ acc
    simp [aggregateAux]
  | cons s rest ih =>
    intro h acc
    have hs := h s (List.mem_cons_self _ _)
    have hrest := fun t ht => h t (List.mem_cons_of_mem _ ht)
    rw [aggregateAux, hs]
    exact ih hrest acc

/-- C10: on a non-empty elements array in which no shape carries a
`frameId`, the run succeeds and the output file holds exactly the header
"from manim import *" and its following blank line, with no scene
definitions — while on an empty elements array the output file is never
opened. -/
theorem c10_no_frames_header_only (cw ch : Rat) (shapes : List Shape)
    (hne : shapes ≠ [])
    (hnone : ∀ s ∈ shapes, s.frameId = none) :
    run cw ch shapes = (.written [.header], none) ∧
    run cw ch [] = (.notOpened, none) := by
  constructor
  · have hagg : aggregate shapes = .ok [] :=
      aggregateAux_no_frameId shapes shapes hnone []
    have hempty : shapes.isEmpty = false := by
      cases shapes with
      | nil => exact absurd rfl hne
      | cons a l => rfl
    simp [run, hempty, hagg, writeFrames]
  · simp [run]

/-- Witness for C10: a single frame shape with no `frameId`. -/
theorem c10_no_frames_header_only_witness :
    run 14 8 [introFrameShape] = (.written [.header], none) ∧
    run 14 8 [] = (.notOpened, none) :=
  c10_no_frames_header_only 14 8 [introFrameShape] (by simp)
    (by
      intro s hs
      simp only [List.mem_singleton] at hs
      subst hs
      rfl)

end Exman
